import Mathlib

/-!
A verification development for the zero-knowledge statement layer of a
shielded value-transfer protocol (the `groth16` proof-wrapper module and
its circuits).

The repository snapshot contains the module root (`groth16.rs`): the
proof-length constant, the test suite, and the test-only
`MerkleProofCircuit`. The circuit implementations themselves
(`spend.rs`, `output.rs`, `delegator_vote.rs`, `nullifier_derivation.rs`,
`undelegate.rs`, `traits.rs`, `gadgets.rs`) live in sibling files that are
not part of the snapshot, so the circuits are modelled from the
specification (each such definition carries a `Modelled from the spec:`
doc comment). The SNARK backend itself (Groth16 over BLS12-377) is an
external library; we model it as an ideal SNARK: a proof object binds the
public statement it was produced for together with the fact of whether
the witness satisfied the circuit's constraint relation, proving
succeeds/fails according to the strictness mode, and verification
succeeds exactly when the supplied public inputs are the bound ones and
the constraints were satisfied. Cryptographic primitives (commitments,
nullifier derivation, key randomization, the Merkle hash) are modelled
symbolically as free constructors, which realizes exactly the binding /
determinism / collision-resistance properties the specification assigns
to them.
-/

/-! ## Symbolic field and scalar values

Field elements (Fq) and scalars (Fr) are modelled symbolically as natural
numbers; the only scalar operation the statement layer needs is the
addition used by spend-authorization randomization. -/

/-- Modelled from the spec: an asset identifier (missing `asset.rs`). -/
abbrev AssetId := Nat

/-- Modelled from the spec: a `Value` is an amount (unsigned 64+-bit
integer, modelled as `Nat`) together with an asset identifier (missing
`value.rs`). -/
structure Value where
  amount : Nat
  assetId : AssetId
deriving DecidableEq, Repr

/-! ## Keys

Modelled from the spec (missing `keys.rs`): a spend-authorization key is
a scalar; the randomized signing key is `rsk = sak + randomizer` and the
circuits check the corresponding public point `rk = rsk · basepoint`.
Scalar-multiplication by the basepoint is injective, so `rk` is modelled
as a free constructor on the scalar. -/

structure SpendAuthKey where
  ask : Nat
deriving DecidableEq, Repr

structure NullifierKey where
  key : Nat
deriving DecidableEq, Repr

/-- Modelled from the spec: the public randomized verification key
`rk = (sak + randomizer) · basepoint`, as the free image of its scalar. -/
inductive RandomizedVerificationKey where
  | point (scalar : Nat)
deriving DecidableEq, Repr

/-- Modelled from the spec: spend-authorization randomization,
`(base_key, randomizer) -> randomized_key`. -/
def SpendAuthKey.randomizedKey (ak : SpendAuthKey) (randomizer : Nat) :
    RandomizedVerificationKey :=
  .point (ak.ask + randomizer)

/-! ## Addresses and notes -/

/-- Modelled from the spec: the transmission key of a diversified
address, derived one-way from the key pair `(ak, nk)` (via the incoming
viewing key) and the diversified generator. Free constructor: the
derivation is deterministic and injective in its inputs, which is the
property the spend circuit's ownership check relies on. -/
inductive TransmissionKey where
  | derive (ak : Nat) (nk : Nat) (diversifiedGenerator : Nat)
deriving DecidableEq, Repr

/-- Modelled from the spec: diversified address components as consumed by
the note commitment (missing `address.rs`). -/
structure Address where
  diversifiedGenerator : Nat
  transmissionKey : TransmissionKey
  clueKey : Nat
deriving DecidableEq, Repr

/-- Modelled from the spec: a `Note` is a value, diversified address
components and a note blinding factor (missing `note.rs`). -/
structure Note where
  value : Value
  address : Address
  noteBlinding : Nat
deriving DecidableEq, Repr

/-- Modelled from the spec: a note commitment is a deterministic one-way
function of all note fields, uniquely determined by the note contents and
collision-resistant — realized as the free constructor on the fields in
the order the code's `note::commitment` takes them. -/
inductive NoteCommitment where
  | commit (noteBlinding : Nat) (value : Value) (diversifiedGenerator : Nat)
      (transmissionKey : TransmissionKey) (clueKey : Nat)
deriving DecidableEq, Repr

/-- The note commitment of a note (the code's `Note::commit`). -/
def Note.commit (n : Note) : NoteCommitment :=
  .commit n.noteBlinding n.value n.address.diversifiedGenerator
    n.address.transmissionKey n.address.clueKey

/-- Modelled from the spec: a nullifier is a deterministic function of
(nullifier key, tree position, commitment), unique per spent note —
realized as a free constructor. -/
inductive Nullifier where
  | derive (key : Nat) (position : Nat) (commitment : NoteCommitment)
deriving DecidableEq, Repr

/-- Nullifier derivation (the code's `NullifierKey::derive_nullifier`). -/
def NullifierKey.deriveNullifier (nk : NullifierKey) (position : Nat)
    (cm : NoteCommitment) : Nullifier :=
  .derive nk.key position cm

/-! ## Balances and balance commitments -/

/-- Modelled from the spec: a balance is a signed combination of values
(missing `balance.rs`). -/
abbrev Balance := List (Int × AssetId)

/-- The single-asset balance of a value. -/
def Value.toBalance (v : Value) : Balance :=
  [((v.amount : Int), v.assetId)]

/-- Negation of a balance. -/
def Balance.neg (b : Balance) : Balance :=
  b.map fun p => (-p.1, p.2)

/-- Modelled from the spec: a Pedersen balance commitment
`Σ(value_i · generator_i) + blinding · H`, binding and hiding — modelled
as the free constructor on the committed balance and the blinding
scalar, which realizes perfect binding. -/
inductive BalanceCommitment where
  | commit (balance : Balance) (blinding : Nat)
deriving DecidableEq, Repr

/-- Balance commitment of a bare value (the code's `Value::commit`). -/
def Value.commitBalance (v : Value) (blinding : Nat) : BalanceCommitment :=
  .commit v.toBalance blinding

/-! ## Penalties and unbonding claims -/

/-- Modelled from the spec: the fixed denominator of the rational penalty
conversion (a basis-point-squared scale, 10^8 = 100%). -/
def penaltyDenom : Nat := 100000000

/-- Modelled from the spec: `penalty_applied` is a deterministic rational
conversion applied to the claimed unbonding amount before committing
(missing `stake/penalty.rs`): the amount scaled by the remaining
(non-slashed) fraction. -/
def penaltyApplied (amount penalty : Nat) : Nat :=
  amount * (penaltyDenom - min penalty penaltyDenom) / penaltyDenom

/-- Modelled from the spec: the balance a claim is entitled to — the
penalty-adjusted amount denominated in the unbonding token (the code's
`Penalty::balance_for_claim`). -/
def balanceForClaim (unbondingId : AssetId) (amount penalty : Nat) : Balance :=
  [((penaltyApplied amount penalty : Int), unbondingId)]

/-! ## The ideal SNARK model

Modelled from the spec: the generic SNARK backend is an external
collaborator; the statement layer requires only that proving from a
witness/public assignment either fails at constraint synthesis (strict,
debug mode) when the constraints are unsatisfied, or produces a proof,
and that verification succeeds exactly on the public inputs the proof
was produced for with a satisfied constraint system. Key material is
opaque to this layer. -/

/-- Strictness of constraint-satisfaction checking at proving time
(debug-mode assertion vs. release-mode silent proof). -/
inductive Mode where
  | strict
  | relaxed
deriving DecidableEq, Repr

/-- Constraint-system synthesis failure at proving time. -/
inductive ProvingError where
  | synthesisFailure
deriving DecidableEq, Repr

/-- Verification failure: a structurally valid proof that fails the
algebraic check against the supplied public inputs. -/
inductive VerificationError where
  | invalidProof
deriving DecidableEq, Repr

/-- Opaque proving key (generated once per circuit description). -/
structure ProvingKeyModel where
  keyId : Nat := 0
deriving DecidableEq, Repr

/-- Opaque (prepared) verifying key. -/
structure VerifyingKeyModel where
  keyId : Nat := 0
deriving DecidableEq, Repr

/-- An ideal Groth16 proof over statements `S`: it binds the public
statement it was produced for and whether the witness satisfied the
circuit's constraint relation. -/
structure Groth16Proof (S : Type) where
  stmt : S
  satisfied : Bool
deriving DecidableEq, Repr

/-- Ideal proving: in strict mode an unsatisfied constraint system fails
synthesis; in relaxed mode a syntactically valid but semantically false
proof is constructed. -/
def groth16Prove {W S : Type} (c : W → S → Prop) [inst : ∀ w x, Decidable (c w x)]
    (mode : Mode) (_pk : ProvingKeyModel) (w : W) (x : S) :
    Except ProvingError (Groth16Proof S) :=
  if mode = Mode.strict ∧ ¬ c w x then
    .error .synthesisFailure
  else
    .ok ⟨x, decide (c w x)⟩

/-- Ideal verification: succeeds exactly when the supplied public inputs
are the ones the proof binds and the constraints were satisfied. Always
returns a result value — never a crash. -/
def groth16Verify {S : Type} [DecidableEq S] (_vk : VerifyingKeyModel)
    (x : S) (pf : Groth16Proof S) : Except VerificationError Unit :=
  if pf.stmt = x ∧ pf.satisfied = true then .ok () else .error .invalidProof

/-! ## UndelegateClaimCircuit -/

/-- Public inputs of the undelegate-claim circuit: balance commitment,
unbonding token identifier, penalty value. -/
structure UndelegateClaimStatement where
  balanceCommitment : BalanceCommitment
  unbondingId : AssetId
  penalty : Nat
deriving DecidableEq, Repr

/-- Witnesses of the undelegate-claim circuit: unbonding amount and
balance-blinding factor. -/
structure UndelegateClaimWitness where
  unbondingAmount : Nat
  balanceBlinding : Nat
deriving DecidableEq, Repr

/-- Modelled from the spec (missing `undelegate.rs`): the enforced
relation of the `UndelegateClaimCircuit`:
`balance_commitment == commit(penalty_applied(unbonding_amount, penalty),
unbonding_token_id, blinding)`. -/
def undelegateClaimConstraints (w : UndelegateClaimWitness)
    (x : UndelegateClaimStatement) : Prop :=
  x.balanceCommitment =
    .commit (balanceForClaim x.unbondingId w.unbondingAmount x.penalty)
      w.balanceBlinding

instance (w : UndelegateClaimWitness) (x : UndelegateClaimStatement) :
    Decidable (undelegateClaimConstraints w x) := by
  unfold undelegateClaimConstraints; infer_instance

/-- The `UndelegateClaimProof` wrapper's `prove` entry point. -/
def UndelegateClaimProof.prove (mode : Mode) (pk : ProvingKeyModel)
    (unbondingAmount : Nat) (balanceBlinding : Nat)
    (balanceCommitment : BalanceCommitment) (unbondingId : AssetId)
    (penalty : Nat) :
    Except ProvingError (Groth16Proof UndelegateClaimStatement) :=
  groth16Prove undelegateClaimConstraints mode pk
    ⟨unbondingAmount, balanceBlinding⟩
    ⟨balanceCommitment, unbondingId, penalty⟩

/-- The `UndelegateClaimProof` wrapper's `verify` entry point. -/
def UndelegateClaimProof.verify (pf : Groth16Proof UndelegateClaimStatement)
    (vk : VerifyingKeyModel) (balanceCommitment : BalanceCommitment)
    (unbondingId : AssetId) (penalty : Nat) :
    Except VerificationError Unit :=
  groth16Verify vk ⟨balanceCommitment, unbondingId, penalty⟩ pf

/-! ## The Merkle hash and authentication paths

Modelled from the spec: the state commitment tree is consumed through its
proof-of-inclusion object (leaf, path, position) and root value; the
Merkle-membership gadget enforces that repeated hashing along the path
reconstructs the root. The tree hash is modelled as a free constructor
(collision-resistant), leaves hold an optional commitment (a vacant
position hashes as `leaf none`). -/

inductive HashVal where
  | leaf (c : Option NoteCommitment)
  | node (l r : HashVal)
deriving DecidableEq, Repr

/-- The root of the complete subtree of depth `d` whose leaves are
`f base, f (base+1), …, f (base + 2^d - 1)`. -/
def buildTree (d : Nat) (base : Nat) (f : Nat → Option NoteCommitment) :
    HashVal :=
  match d with
  | 0 => .leaf (f base)
  | d + 1 => .node (buildTree d base f) (buildTree d (base + 2 ^ d) f)

/-- The authentication path (list of sibling subtree hashes, root-most
first) for position `pos` inside the depth-`d` subtree based at `base`. -/
def authPath (d : Nat) (base : Nat) (pos : Nat)
    (f : Nat → Option NoteCommitment) : List HashVal :=
  match d with
  | 0 => []
  | d + 1 =>
    if pos < 2 ^ d then
      buildTree d (base + 2 ^ d) f :: authPath d base pos f
    else
      buildTree d base f :: authPath d (base + 2 ^ d) (pos - 2 ^ d) f

/-- Recompute a root from a claimed leaf, its position, and an
authentication path — the hashing the Merkle-membership gadget performs
in-circuit. -/
def recomputeRoot (pos : Nat) (leafVal : Option NoteCommitment) :
    List HashVal → HashVal
  | [] => .leaf leafVal
  | s :: rest =>
    if pos < 2 ^ rest.length then
      .node (recomputeRoot pos leafVal rest) s
    else
      .node s (recomputeRoot (pos - 2 ^ rest.length) leafVal rest)

/-- Modelled from the spec: the tree's proof-of-inclusion object —
the committed leaf, its position, and the sibling path. A synthetic
dummy proof is any such object whose path is unrelated to a real tree. -/
structure StateCommitmentProof where
  commitment : NoteCommitment
  position : Nat
  auth : List HashVal
deriving DecidableEq, Repr

/-! ## SpendCircuit -/

/-- Public inputs of the spend circuit: anchor (tree root), balance
commitment, nullifier, randomized verification key. -/
structure SpendStatement where
  anchor : HashVal
  balanceCommitment : BalanceCommitment
  nullifier : Nullifier
  rk : RandomizedVerificationKey
deriving DecidableEq, Repr

/-- Witnesses of the spend circuit: the full note, its value-blinding
factor, the spend-authorization randomizer, the spend-authorization key,
the nullifier key, and the Merkle inclusion proof. -/
structure SpendWitness where
  stateCommitmentProof : StateCommitmentProof
  note : Note
  vBlinding : Nat
  spendAuthRandomizer : Nat
  ak : SpendAuthKey
  nk : NullifierKey
deriving DecidableEq, Repr

/-- Modelled from the spec: the ownership relation tying the witnessed
note's diversified address to the supplied key pair — the note's
transmission key must be the one derived (via the incoming viewing key)
from `(ak, nk)` and the note's diversified generator. -/
def addressIntegrity (note : Note) (ak : SpendAuthKey) (nk : NullifierKey) :
    Prop :=
  note.address.transmissionKey =
    .derive ak.ask nk.key note.address.diversifiedGenerator

instance (note : Note) (ak : SpendAuthKey) (nk : NullifierKey) :
    Decidable (addressIntegrity note ak nk) := by
  unfold addressIntegrity; infer_instance

/-- Modelled from the spec (missing `spend.rs`): the relations the
`SpendCircuit` enforces within one constraint system:
1. commitment-integrity: the witness note hashes to the leaf claimed in
   the Merkle proof;
2. Merkle membership: the leaf is included under the anchor at the
   witnessed position — unless the note's value is zero, in which case
   membership is not enforced (dummy-spend bypass) but the zero-value
   fact itself gates the bypass;
3. nullifier correctness: `nullifier == derive(nk, position, commitment)`;
4. balance-commitment correctness: `bc == commit(value, blinding)`;
5. randomized-key correctness: `rk == randomize(ak, randomizer)`;
plus the ownership (diversified-address integrity) relation. -/
def spendConstraints (w : SpendWitness) (x : SpendStatement) : Prop :=
  w.stateCommitmentProof.commitment = w.note.commit
  ∧ (w.note.value.amount = 0 ∨
      recomputeRoot w.stateCommitmentProof.position
        (some w.stateCommitmentProof.commitment)
        w.stateCommitmentProof.auth = x.anchor)
  ∧ x.nullifier =
      w.nk.deriveNullifier w.stateCommitmentProof.position w.note.commit
  ∧ x.balanceCommitment = w.note.value.commitBalance w.vBlinding
  ∧ x.rk = w.ak.randomizedKey w.spendAuthRandomizer
  ∧ addressIntegrity w.note w.ak w.nk

instance (w : SpendWitness) (x : SpendStatement) :
    Decidable (spendConstraints w x) := by
  unfold spendConstraints; infer_instance

/-- The `SpendProof` wrapper's `prove` entry point. -/
def SpendProof.prove (mode : Mode) (pk : ProvingKeyModel)
    (stateCommitmentProof : StateCommitmentProof) (note : Note)
    (vBlinding : Nat) (spendAuthRandomizer : Nat) (ak : SpendAuthKey)
    (nk : NullifierKey) (anchor : HashVal)
    (balanceCommitment : BalanceCommitment) (nf : Nullifier)
    (rk : RandomizedVerificationKey) :
    Except ProvingError (Groth16Proof SpendStatement) :=
  groth16Prove spendConstraints mode pk
    ⟨stateCommitmentProof, note, vBlinding, spendAuthRandomizer, ak, nk⟩
    ⟨anchor, balanceCommitment, nf, rk⟩

/-- The `SpendProof` wrapper's `verify` entry point. -/
def SpendProof.verify (pf : Groth16Proof SpendStatement)
    (vk : VerifyingKeyModel) (anchor : HashVal)
    (balanceCommitment : BalanceCommitment) (nf : Nullifier)
    (rk : RandomizedVerificationKey) : Except VerificationError Unit :=
  groth16Verify vk ⟨anchor, balanceCommitment, nf, rk⟩ pf

/-! ## OutputCircuit -/

/-- Public inputs of the output circuit: balance commitment (negated
relative to a spend) and note commitment. -/
structure OutputStatement where
  balanceCommitment : BalanceCommitment
  noteCommitment : NoteCommitment
deriving DecidableEq, Repr

/-- Witnesses of the output circuit: the recipient note and the
value-blinding factor. -/
structure OutputWitness where
  note : Note
  vBlinding : Nat
deriving DecidableEq, Repr

/-- Modelled from the spec (missing `output.rs`): the `OutputCircuit`
enforces commitment-integrity and balance-commitment correctness only —
no nullifier, no membership. -/
def outputConstraints (w : OutputWitness) (x : OutputStatement) : Prop :=
  x.noteCommitment = w.note.commit
  ∧ x.balanceCommitment = .commit w.note.value.toBalance.neg w.vBlinding

instance (w : OutputWitness) (x : OutputStatement) :
    Decidable (outputConstraints w x) := by
  unfold outputConstraints; infer_instance

/-- The `OutputProof` wrapper's `prove` entry point. -/
def OutputProof.prove (mode : Mode) (pk : ProvingKeyModel) (note : Note)
    (vBlinding : Nat) (balanceCommitment : BalanceCommitment)
    (noteCommitment : NoteCommitment) :
    Except ProvingError (Groth16Proof OutputStatement) :=
  groth16Prove outputConstraints mode pk ⟨note, vBlinding⟩
    ⟨balanceCommitment, noteCommitment⟩

/-- The `OutputProof` wrapper's `verify` entry point. -/
def OutputProof.verify (pf : Groth16Proof OutputStatement)
    (vk : VerifyingKeyModel) (balanceCommitment : BalanceCommitment)
    (noteCommitment : NoteCommitment) : Except VerificationError Unit :=
  groth16Verify vk ⟨balanceCommitment, noteCommitment⟩ pf

/-! ## DelegatorVoteCircuit -/

/-- Public inputs of the delegator-vote circuit: the spend circuit's,
plus the vote's `start_position`. -/
structure DelegatorVoteStatement where
  anchor : HashVal
  balanceCommitment : BalanceCommitment
  nullifier : Nullifier
  rk : RandomizedVerificationKey
  startPosition : Nat
deriving DecidableEq, Repr

/-- Witnesses of the delegator-vote circuit: the spend circuit's, except
that the vote's balance commitment is transparent (the wrapper's `prove`
takes no value-blinding factor; the commitment uses blinding zero). -/
structure DelegatorVoteWitness where
  stateCommitmentProof : StateCommitmentProof
  note : Note
  spendAuthRandomizer : Nat
  ak : SpendAuthKey
  nk : NullifierKey
deriving DecidableEq, Repr

/-- Modelled from the spec (missing `delegator_vote.rs`): the
`DelegatorVoteCircuit` is a `SpendCircuit` variant with the additional
constraint that the witnessed note's position is strictly less than
`start_position` (the note existed before voting began); the anchor is a
historical root and the balance commitment is transparent (blinding 0,
as in the wrapper's `prove` signature). -/
def delegatorVoteConstraints (w : DelegatorVoteWitness)
    (x : DelegatorVoteStatement) : Prop :=
  spendConstraints
    ⟨w.stateCommitmentProof, w.note, 0, w.spendAuthRandomizer, w.ak, w.nk⟩
    ⟨x.anchor, x.balanceCommitment, x.nullifier, x.rk⟩
  ∧ w.stateCommitmentProof.position < x.startPosition

instance (w : DelegatorVoteWitness) (x : DelegatorVoteStatement) :
    Decidable (delegatorVoteConstraints w x) := by
  unfold delegatorVoteConstraints; infer_instance

/-- The `DelegatorVoteProof` wrapper's `prove` entry point. -/
def DelegatorVoteProof.prove (mode : Mode) (pk : ProvingKeyModel)
    (stateCommitmentProof : StateCommitmentProof) (note : Note)
    (spendAuthRandomizer : Nat) (ak : SpendAuthKey) (nk : NullifierKey)
    (anchor : HashVal) (balanceCommitment : BalanceCommitment)
    (nf : Nullifier) (rk : RandomizedVerificationKey)
    (startPosition : Nat) :
    Except ProvingError (Groth16Proof DelegatorVoteStatement) :=
  groth16Prove delegatorVoteConstraints mode pk
    ⟨stateCommitmentProof, note, spendAuthRandomizer, ak, nk⟩
    ⟨anchor, balanceCommitment, nf, rk, startPosition⟩

/-- The `DelegatorVoteProof` wrapper's `verify` entry point. -/
def DelegatorVoteProof.verify (pf : Groth16Proof DelegatorVoteStatement)
    (vk : VerifyingKeyModel) (anchor : HashVal)
    (balanceCommitment : BalanceCommitment) (nf : Nullifier)
    (rk : RandomizedVerificationKey) (startPosition : Nat) :
    Except VerificationError Unit :=
  groth16Verify vk ⟨anchor, balanceCommitment, nf, rk, startPosition⟩ pf

/-! ## NullifierDerivationCircuit -/

/-- Public inputs of the nullifier-derivation circuit: exactly the note
commitment (recomputed from the witness note and checked) and the
nullifier value. -/
structure NullifierDerivationStatement where
  noteCommitment : NoteCommitment
  nullifier : Nullifier
deriving DecidableEq, Repr

/-- Witnesses of the nullifier-derivation circuit: note, nullifier key,
tree position. -/
structure NullifierDerivationWitness where
  position : Nat
  note : Note
  nk : NullifierKey
deriving DecidableEq, Repr

/-- Modelled from the spec (missing `nullifier_derivation.rs`): the
`NullifierDerivationCircuit` recomputes and checks the note commitment
and enforces
`nullifier == deterministic_derive(nullifier_key, position, commitment)`. -/
def nullifierDerivationConstraints (w : NullifierDerivationWitness)
    (x : NullifierDerivationStatement) : Prop :=
  x.noteCommitment = w.note.commit
  ∧ x.nullifier = w.nk.deriveNullifier w.position w.note.commit

instance (w : NullifierDerivationWitness) (x : NullifierDerivationStatement) :
    Decidable (nullifierDerivationConstraints w x) := by
  unfold nullifierDerivationConstraints; infer_instance

/-- The `NullifierDerivationProof` wrapper's `prove` entry point. -/
def NullifierDerivationProof.prove (mode : Mode) (pk : ProvingKeyModel)
    (position : Nat) (note : Note) (nk : NullifierKey) (nf : Nullifier) :
    Except ProvingError (Groth16Proof NullifierDerivationStatement) :=
  groth16Prove nullifierDerivationConstraints mode pk
    ⟨position, note, nk⟩ ⟨note.commit, nf⟩

/-- The `NullifierDerivationProof` wrapper's `verify` entry point. The
code's `verify` takes the position and note and recomputes the public
note commitment from the note. -/
def NullifierDerivationProof.verify
    (pf : Groth16Proof NullifierDerivationStatement)
    (vk : VerifyingKeyModel) (_position : Nat) (note : Note)
    (nf : Nullifier) : Except VerificationError Unit :=
  groth16Verify vk ⟨note.commit, nf⟩ pf

/-! ## Byte-level proof encoding and wire conversion

The module root fixes `GROTH16_PROOF_LENGTH_BYTES = 192`. Each proof
wrapper stores the compressed proof as a fixed 192-byte array; the wire
message envelope carries an arbitrary-length byte payload and conversion
from the envelope re-validates the length. Modelled from the spec
(missing wrapper serialization code): bytes are naturals below 256; the
proof-side representation carries the fixed-length invariant exactly as
the code's `[u8; GROTH16_PROOF_LENGTH_BYTES]` does. -/

/-- The length of our Groth16 proofs in bytes (`GROTH16_PROOF_LENGTH_BYTES`
in the module root). -/
def GROTH16_PROOF_LENGTH_BYTES : Nat := 192

/-- A byte. -/
abbrev ProofByte := Fin 256

/-- The fixed-length byte representation held inside each proof wrapper
(the code's `[u8; GROTH16_PROOF_LENGTH_BYTES]` field). -/
structure ProofBytes where
  bytes : List ProofByte
  lengthEq : bytes.length = GROTH16_PROOF_LENGTH_BYTES
deriving DecidableEq

/-- Malformed-encoding rejection at the deserialization boundary. -/
inductive DecodeError where
  | invalidLength
deriving DecidableEq, Repr

/-- Modelled from the spec: the external wire message envelope carrying
the proof payload (the protobuf `ZkProof` messages); its payload is an
arbitrary byte string. -/
structure ZkProofMessage where
  inner : List ProofByte
deriving DecidableEq

/-- Conversion of a proof into its wire envelope (the code's
`From<Proof> for pb::Zk...Proof`). -/
def ProofBytes.toMessage (p : ProofBytes) : ZkProofMessage :=
  ⟨p.bytes⟩

/-- Conversion from the wire envelope back into a proof, re-validating
the length before accepting (the code's `TryFrom<pb::Zk...Proof>`). A
pure function: failure produces no partial decode state. -/
def ZkProofMessage.tryToProof (m : ZkProofMessage) :
    Except DecodeError ProofBytes :=
  if h : m.inner.length = GROTH16_PROOF_LENGTH_BYTES then
    .ok ⟨m.inner, h⟩
  else
    .error .invalidLength

/-- Direct deserialization of a raw byte string into a proof, rejecting
any length other than the fixed proof size. -/
def proofFromBytes (bs : List ProofByte) : Except DecodeError ProofBytes :=
  if h : bs.length = GROTH16_PROOF_LENGTH_BYTES then
    .ok ⟨bs, h⟩
  else
    .error .invalidLength

/-! ## The state commitment tree

Modelled from the spec: the append-only commitment tree is an external
collaborator with epoch/block checkpointing; the core consumes only its
inclusion-proof objects and root. We model the tree's evolution: inserts
append a commitment (kept or immediately forgotten) at the next free
position; ending a block (resp. an epoch) advances the next free
position to the next block-size (resp. epoch-size) boundary. -/

/-- An operation on the state commitment tree. -/
inductive TctOp where
  | insert (keep : Bool) (c : NoteCommitment)
  | endBlock
  | endEpoch
deriving DecidableEq, Repr

/-- The tree's state: the inserted entries (position, commitment, kept
flag) and the next free position. -/
structure TctState where
  entries : List (Nat × NoteCommitment × Bool)
  next : Nat
deriving DecidableEq, Repr

/-- The least multiple of `m` that is `≥ n` (for `0 < m`). -/
def alignUp (n m : Nat) : Nat :=
  (n + m - 1) / m * m

/-- One step of tree evolution, for block size `bs` and epoch size `es`. -/
def TctState.applyOp (bs es : Nat) (s : TctState) : TctOp → TctState
  | .insert keep c => ⟨s.entries ++ [(s.next, c, keep)], s.next + 1⟩
  | .endBlock => ⟨s.entries, alignUp s.next bs⟩
  | .endEpoch => ⟨s.entries, alignUp s.next es⟩

/-- Run a sequence of tree operations from the empty tree. -/
def runTct (bs es : Nat) (ops : List TctOp) : TctState :=
  ops.foldl (TctState.applyOp bs es) ⟨[], 0⟩

/-- The leaf contents of the tree at a position: the commitment of the
entry inserted there, if any. -/
def leafAt (entries : List (Nat × NoteCommitment × Bool)) (p : Nat) :
    Option NoteCommitment :=
  match entries.find? (fun e => decide (e.1 = p)) with
  | some e => some e.2.1
  | none => none

/-- The tree's current root over a depth-`d` leaf space. -/
def TctState.root (d : Nat) (s : TctState) : HashVal :=
  buildTree d 0 (leafAt s.entries)

/-! ## MerkleProofCircuit

The test-only circuit in the module root: witnesses an inclusion proof
(auth path, position, claimed note commitment) and takes the tree root
(anchor) as its only public input, enforcing that the path verifies. -/

/-- Public input of the `MerkleProofCircuit`: the Merkle root of the
state commitment tree. -/
structure MerkleStatement where
  anchor : HashVal
deriving DecidableEq, Repr

/-- Witness of the `MerkleProofCircuit`: the inclusion proof for the
note commitment. -/
structure MerkleWitness where
  stateCommitmentProof : StateCommitmentProof
deriving DecidableEq, Repr

/-- The constraint the `MerkleProofCircuit` generates: hashing the
claimed commitment along the witnessed path at the witnessed position
reconstructs the public anchor. -/
def merkleConstraints (w : MerkleWitness) (x : MerkleStatement) : Prop :=
  recomputeRoot w.stateCommitmentProof.position
    (some w.stateCommitmentProof.commitment)
    w.stateCommitmentProof.auth = x.anchor

instance (w : MerkleWitness) (x : MerkleStatement) :
    Decidable (merkleConstraints w x) := by
  unfold merkleConstraints; infer_instance

/-- Proving for the `MerkleProofCircuit`. -/
def MerkleProofCircuit.prove (mode : Mode) (pk : ProvingKeyModel)
    (stateCommitmentProof : StateCommitmentProof) (anchor : HashVal) :
    Except ProvingError (Groth16Proof MerkleStatement) :=
  groth16Prove merkleConstraints mode pk ⟨stateCommitmentProof⟩ ⟨anchor⟩

/-- Verification for the `MerkleProofCircuit` (`verify_with_processed_vk`
against the anchor as the only public input). -/
def MerkleProofCircuit.verify (pf : Groth16Proof MerkleStatement)
    (vk : VerifyingKeyModel) (anchor : HashVal) :
    Except VerificationError Unit :=
  groth16Verify vk ⟨anchor⟩ pf

/-- The inclusion proof the tree hands out for a retained commitment `c`
sitting at position `p` (the code's `sct.witness(c)`), over a depth-`d`
leaf space. -/
def TctState.witnessProof (d : Nat) (s : TctState) (p : Nat)
    (c : NoteCommitment) : StateCommitmentProof :=
  ⟨c, p, authPath d 0 p (leafAt s.entries)⟩

/-- Well-formedness of a tree state: every recorded position is below
the next free position, and recorded positions are pairwise distinct. -/
def TctState.wellFormed (s : TctState) : Prop :=
  (∀ e ∈ s.entries, e.1 < s.next)
  ∧ s.entries.Pairwise (fun a b => a.1 ≠ b.1)

/-- Exactly one of the four public inputs of a spend statement was
mutated between `x` and `y`, the other three left unchanged. -/
def mutatedExactlyOne (x y : SpendStatement) : Prop :=
  (x.anchor ≠ y.anchor ∧ x.balanceCommitment = y.balanceCommitment
    ∧ x.nullifier = y.nullifier ∧ x.rk = y.rk)
  ∨ (x.anchor = y.anchor ∧ x.balanceCommitment ≠ y.balanceCommitment
    ∧ x.nullifier = y.nullifier ∧ x.rk = y.rk)
  ∨ (x.anchor = y.anchor ∧ x.balanceCommitment = y.balanceCommitment
    ∧ x.nullifier ≠ y.nullifier ∧ x.rk = y.rk)
  ∨ (x.anchor = y.anchor ∧ x.balanceCommitment = y.balanceCommitment
    ∧ x.nullifier = y.nullifier ∧ x.rk ≠ y.rk)

instance (x y : SpendStatement) : Decidable (mutatedExactlyOne x y) := by
  unfold mutatedExactlyOne; infer_instance

/-! ## Sample concrete data

Small closed instances used to evaluate the development on concrete
inputs: a note owned by the key pair `ak = ⟨0⟩, nk = ⟨0⟩`, sitting at
position 0 of a depth-0 tree (empty authentication path), together with
matching public inputs. -/

def sampleNote : Note := ⟨⟨1, 0⟩, ⟨0, .derive 0 0 0, 0⟩, 0⟩

def sampleCm : NoteCommitment := sampleNote.commit

def sampleProofObj : StateCommitmentProof := ⟨sampleCm, 0, []⟩

def sampleAnchor : HashVal := .leaf (some sampleCm)

def sampleSpendWitness : SpendWitness :=
  ⟨sampleProofObj, sampleNote, 5, 3, ⟨0⟩, ⟨0⟩⟩

def sampleSpendStatement : SpendStatement :=
  ⟨sampleAnchor, sampleNote.value.commitBalance 5,
    NullifierKey.deriveNullifier ⟨0⟩ 0 sampleCm,
    SpendAuthKey.randomizedKey ⟨0⟩ 3⟩

/-- `sampleSpendStatement` with exactly the anchor mutated (substituted
by the root of an empty depth-0 tree). -/
def sampleMutatedStatement : SpendStatement :=
  ⟨.leaf none, sampleSpendStatement.balanceCommitment,
    sampleSpendStatement.nullifier, sampleSpendStatement.rk⟩

def sampleOutputWitness : OutputWitness := ⟨sampleNote, 7⟩

def sampleOutputStatement : OutputStatement :=
  ⟨.commit sampleNote.value.toBalance.neg 7, sampleCm⟩

def sampleVoteWitness : DelegatorVoteWitness :=
  ⟨sampleProofObj, sampleNote, 3, ⟨0⟩, ⟨0⟩⟩

def sampleVoteStatement : DelegatorVoteStatement :=
  ⟨sampleAnchor, sampleNote.value.commitBalance 0,
    NullifierKey.deriveNullifier ⟨0⟩ 0 sampleCm,
    SpendAuthKey.randomizedKey ⟨0⟩ 3, 1⟩

def sampleUndelegateWitness : UndelegateClaimWitness := ⟨10, 4⟩

def sampleUndelegateStatement : UndelegateClaimStatement :=
  ⟨.commit (balanceForClaim 2 10 50000000) 4, 2, 50000000⟩

def sampleNullifierWitness : NullifierDerivationWitness := ⟨0, sampleNote, ⟨0⟩⟩

def sampleNullifier : Nullifier := NullifierKey.deriveNullifier ⟨0⟩ 0 sampleCm

/-- A zero-value note owned by the key pair `ak = ⟨0⟩, nk = ⟨0⟩`. -/
def sampleZeroNote : Note := ⟨⟨0, 0⟩, ⟨0, .derive 0 0 0, 0⟩, 0⟩

/-- A concrete 192-byte proof representation (all zero bytes). -/
def sampleProofBytes : ProofBytes :=
  ⟨List.replicate 192 0, by rw [List.length_replicate]; rfl⟩

/-! ## Helper lemmas -/

theorem authPath_length (d : Nat) : ∀ (base pos : Nat)
    (f : Nat → Option NoteCommitment), (authPath d base pos f).length = d := by
  induction d with
  | zero => intro base pos f; simp [authPath]
  | succ d ih =>
    intro base pos f
    simp only [authPath]
    split <;> simp [ih]

/-- Path-recomputation correctness: hashing the leaf at position `pos`
along its authentication path reconstructs the subtree root. -/
theorem recomputeRoot_authPath (d : Nat) : ∀ (base pos : Nat)
    (f : Nat → Option NoteCommitment), pos < 2 ^ d →
    recomputeRoot pos (f (base + pos)) (authPath d base pos f) =
      buildTree d base f := by
  induction d with
  | zero =>
    intro base pos f h
    have hpos : pos = 0 := by simpa using h
    subst hpos
    simp [authPath, recomputeRoot, buildTree]
  | succ d ih =>
    intro base pos f h
    by_cases hp : pos < 2 ^ d
    · simp only [authPath, if_pos hp, recomputeRoot, authPath_length,
        buildTree]
      rw [ih base pos f hp]
    · have hsub : pos - 2 ^ d < 2 ^ d := by
        have h2 : 2 ^ (d + 1) = 2 ^ d + 2 ^ d := by
          rw [pow_succ]; omega
        omega
      have harg : base + pos = base + 2 ^ d + (pos - 2 ^ d) := by omega
      simp only [authPath, if_neg hp, recomputeRoot, authPath_length,
        buildTree]
      rw [harg, ih (base + 2 ^ d) (pos - 2 ^ d) f hsub]

theorem le_alignUp (n m : Nat) (hm : 0 < m) : n ≤ alignUp n m := by
  unfold alignUp
  have h3 := Nat.div_add_mod (n + m - 1) m
  have h2 : (n + m - 1) % m < m := Nat.mod_lt _ hm
  rw [Nat.mul_comm]
  omega

theorem wellFormed_applyOp (bs es : Nat) (hbs : 0 < bs) (hes : 0 < es)
    (s : TctState) (op : TctOp) (hs : s.wellFormed) :
    (s.applyOp bs es op).wellFormed := by
  obtain ⟨hlt, hpw⟩ := hs
  cases op with
  | insert keep c =>
    refine ⟨?_, ?_⟩
    · intro e he
      simp only [TctState.applyOp, List.mem_append, List.mem_singleton] at he
      rcases he with he | he
      · exact Nat.lt_succ_of_lt (hlt e he)
      · subst he; exact Nat.lt_succ_self _
    · simp only [TctState.applyOp]
      refine List.pairwise_append.mpr ⟨hpw, List.pairwise_singleton _ _, ?_⟩
      intro a ha b hb
      simp only [List.mem_singleton] at hb
      subst hb
      exact Nat.ne_of_lt (hlt a ha)
  | endBlock =>
    exact ⟨fun e he => Nat.lt_of_lt_of_le (hlt e he) (le_alignUp _ _ hbs), hpw⟩
  | endEpoch =>
    exact ⟨fun e he => Nat.lt_of_lt_of_le (hlt e he) (le_alignUp _ _ hes), hpw⟩

theorem wellFormed_runTct (bs es : Nat) (hbs : 0 < bs) (hes : 0 < es)
    (ops : List TctOp) : (runTct bs es ops).wellFormed := by
  unfold runTct
  suffices h : ∀ s : TctState, s.wellFormed →
      (ops.foldl (TctState.applyOp bs es) s).wellFormed by
    exact h ⟨[], 0⟩ ⟨by simp, by simp⟩
  induction ops with
  | nil => intro s hs; simpa using hs
  | cons op rest ih =>
    intro s hs
    simpa using ih _ (wellFormed_applyOp bs es hbs hes s op hs)

theorem leafAt_of_mem (entries : List (Nat × NoteCommitment × Bool))
    (p : Nat) (c : NoteCommitment) (k : Bool)
    (hpw : entries.Pairwise (fun a b => a.1 ≠ b.1))
    (hmem : (p, c, k) ∈ entries) : leafAt entries p = some c := by
  induction entries with
  | nil => cases hmem
  | cons e rest ih =>
    rcases List.pairwise_cons.mp hpw with ⟨hhead, htail⟩
    rcases List.mem_cons.mp hmem with heq | hmem2
    · subst heq
      simp [leafAt, List.find?]
    · have hp : e.1 ≠ p := hhead (p, c, k) hmem2
      have := ih htail hmem2
      simp only [leafAt, List.find?] at this ⊢
      rw [decide_eq_false hp]
      exact this

/-! Generic facts about the ideal SNARK model, shared by the per-claim
theorems. -/

theorem groth16Prove_ok {W S : Type} (c : W → S → Prop)
    [∀ w x, Decidable (c w x)] (mode : Mode) (pk : ProvingKeyModel)
    (w : W) (x : S) (h : c w x) :
    groth16Prove c mode pk w x = .ok ⟨x, true⟩ := by
  unfold groth16Prove
  rw [if_neg (by simp [h]), decide_eq_true h]

theorem groth16Prove_strict_fail {W S : Type} (c : W → S → Prop)
    [∀ w x, Decidable (c w x)] (pk : ProvingKeyModel) (w : W) (x : S)
    (h : ¬ c w x) :
    groth16Prove c Mode.strict pk w x = .error .synthesisFailure := by
  unfold groth16Prove
  rw [if_pos ⟨rfl, h⟩]

theorem groth16Prove_relaxed_unsat {W S : Type} (c : W → S → Prop)
    [∀ w x, Decidable (c w x)] (pk : ProvingKeyModel) (w : W) (x : S)
    (h : ¬ c w x) :
    groth16Prove c Mode.relaxed pk w x = .ok ⟨x, false⟩ := by
  unfold groth16Prove
  rw [if_neg (by simp), decide_eq_false h]

theorem groth16Verify_ok {S : Type} [DecidableEq S] (vk : VerifyingKeyModel)
    (x : S) : groth16Verify vk x ⟨x, true⟩ = .ok () := by
  unfold groth16Verify
  rw [if_pos ⟨rfl, rfl⟩]

theorem groth16Verify_wrong_stmt {S : Type} [DecidableEq S]
    (vk : VerifyingKeyModel) (x y : S) (b : Bool) (h : x ≠ y) :
    groth16Verify vk y ⟨x, b⟩ = .error .invalidProof := by
  unfold groth16Verify
  rw [if_neg (by simp [h])]

theorem groth16Verify_unsat {S : Type} [DecidableEq S]
    (vk : VerifyingKeyModel) (x y : S) :
    groth16Verify vk y ⟨x, false⟩ = .error .invalidProof := by
  unfold groth16Verify
  rw [if_neg (by simp)]

/-! ## Claim theorems -/

/-- C1: For every valid `SpendProof` (produced by `prove` from a witness
satisfying the circuit's relations for public inputs `x`), mutating
exactly one of the four public inputs (anchor, balance commitment,
nullifier, or randomized verification key `rk`) between proving and
verification, leaving the others unchanged, causes `verify` to return a
failure result. In particular a nonzero spend verified against a stale or
substituted anchor fails even when all other public inputs are correct
(the anchor disjunct of `mutatedExactlyOne`), and a nullifier derived
from an incorrect tree position is a different `Nullifier` value, hence
falls under the nullifier disjunct and fails against the otherwise
correct public inputs. -/
theorem spend_proof_single_public_input_mutation_fails
    (mode : Mode) (pk : ProvingKeyModel) (vk : VerifyingKeyModel)
    (w : SpendWitness) (x y : SpendStatement)
    (hsat : spendConstraints w x) (hmut : mutatedExactlyOne x y) :
    SpendProof.prove mode pk w.stateCommitmentProof w.note w.vBlinding
        w.spendAuthRandomizer w.ak w.nk x.anchor x.balanceCommitment
        x.nullifier x.rk = .ok ⟨x, true⟩
    ∧ SpendProof.verify ⟨x, true⟩ vk y.anchor y.balanceCommitment
        y.nullifier y.rk = .error .invalidProof := by
  have hne : x ≠ y := by
    rcases hmut with ⟨h, _, _, _⟩ | ⟨_, h, _, _⟩ | ⟨_, _, h, _⟩ | ⟨_, _, _, h⟩ <;>
      exact fun he => h (by rw [he])
  exact ⟨groth16Prove_ok spendConstraints mode pk w x hsat,
    groth16Verify_wrong_stmt vk x y true hne⟩

theorem spend_proof_single_public_input_mutation_fails_witness :
    spendConstraints sampleSpendWitness sampleSpendStatement
    ∧ mutatedExactlyOne sampleSpendStatement sampleMutatedStatement
    ∧ (SpendProof.prove Mode.relaxed ⟨0⟩ sampleProofObj sampleNote 5 3
          ⟨0⟩ ⟨0⟩ sampleSpendStatement.anchor
          sampleSpendStatement.balanceCommitment
          sampleSpendStatement.nullifier sampleSpendStatement.rk
          = .ok ⟨sampleSpendStatement, true⟩
        ∧ SpendProof.verify ⟨sampleSpendStatement, true⟩ ⟨0⟩
            sampleMutatedStatement.anchor
            sampleMutatedStatement.balanceCommitment
            sampleMutatedStatement.nullifier sampleMutatedStatement.rk
            = .error .invalidProof) :=
  ⟨by decide, by decide,
    spend_proof_single_public_input_mutation_fails Mode.relaxed ⟨0⟩ ⟨0⟩
      sampleSpendWitness sampleSpendStatement sampleMutatedStatement
      (by decide) (by decide)⟩

/-- C2: For every circuit type (spend, output, delegator vote,
undelegate claim, nullifier derivation) and every internally consistent
witness with matching public inputs (the circuit's constraint relation
holds), `prove` succeeds — in either strictness mode — and the resulting
proof passes `verify` when the public inputs are supplied unmodified. -/
theorem all_circuits_prove_verify_happy_path
    (mode : Mode) (pk : ProvingKeyModel) (vk : VerifyingKeyModel)
    (sw : SpendWitness) (sx : SpendStatement)
    (ow : OutputWitness) (ox : OutputStatement)
    (dw : DelegatorVoteWitness) (dx : DelegatorVoteStatement)
    (uw : UndelegateClaimWitness) (ux : UndelegateClaimStatement)
    (nw : NullifierDerivationWitness) (nfv : Nullifier)
    (hs : spendConstraints sw sx)
    (ho : outputConstraints ow ox)
    (hd : delegatorVoteConstraints dw dx)
    (hu : undelegateClaimConstraints uw ux)
    (hn : nullifierDerivationConstraints nw ⟨nw.note.commit, nfv⟩) :
    (SpendProof.prove mode pk sw.stateCommitmentProof sw.note sw.vBlinding
        sw.spendAuthRandomizer sw.ak sw.nk sx.anchor sx.balanceCommitment
        sx.nullifier sx.rk = .ok ⟨sx, true⟩
      ∧ SpendProof.verify ⟨sx, true⟩ vk sx.anchor sx.balanceCommitment
          sx.nullifier sx.rk = .ok ())
    ∧ (OutputProof.prove mode pk ow.note ow.vBlinding ox.balanceCommitment
          ox.noteCommitment = .ok ⟨ox, true⟩
      ∧ OutputProof.verify ⟨ox, true⟩ vk ox.balanceCommitment
          ox.noteCommitment = .ok ())
    ∧ (DelegatorVoteProof.prove mode pk dw.stateCommitmentProof dw.note
          dw.spendAuthRandomizer dw.ak dw.nk dx.anchor dx.balanceCommitment
          dx.nullifier dx.rk dx.startPosition = .ok ⟨dx, true⟩
      ∧ DelegatorVoteProof.verify ⟨dx, true⟩ vk dx.anchor
          dx.balanceCommitment dx.nullifier dx.rk dx.startPosition = .ok ())
    ∧ (UndelegateClaimProof.prove mode pk uw.unbondingAmount
          uw.balanceBlinding ux.balanceCommitment ux.unbondingId ux.penalty
          = .ok ⟨ux, true⟩
      ∧ UndelegateClaimProof.verify ⟨ux, true⟩ vk ux.balanceCommitment
          ux.unbondingId ux.penalty = .ok ())
    ∧ (NullifierDerivationProof.prove mode pk nw.position nw.note nw.nk nfv
          = .ok ⟨⟨nw.note.commit, nfv⟩, true⟩
      ∧ NullifierDerivationProof.verify ⟨⟨nw.note.commit, nfv⟩, true⟩ vk
          nw.position nw.note nfv = .ok ()) :=
  ⟨⟨groth16Prove_ok spendConstraints mode pk sw sx hs,
      groth16Verify_ok vk sx⟩,
    ⟨groth16Prove_ok outputConstraints mode pk ow ox ho,
      groth16Verify_ok vk ox⟩,
    ⟨groth16Prove_ok delegatorVoteConstraints mode pk dw dx hd,
      groth16Verify_ok vk dx⟩,
    ⟨groth16Prove_ok undelegateClaimConstraints mode pk uw ux hu,
      groth16Verify_ok vk ux⟩,
    ⟨groth16Prove_ok nullifierDerivationConstraints mode pk nw
        ⟨nw.note.commit, nfv⟩ hn,
      groth16Verify_ok vk
        (⟨nw.note.commit, nfv⟩ : NullifierDerivationStatement)⟩⟩

theorem all_circuits_prove_verify_happy_path_witness :
    spendConstraints sampleSpendWitness sampleSpendStatement
    ∧ outputConstraints sampleOutputWitness sampleOutputStatement
    ∧ delegatorVoteConstraints sampleVoteWitness sampleVoteStatement
    ∧ undelegateClaimConstraints sampleUndelegateWitness
        sampleUndelegateStatement
    ∧ nullifierDerivationConstraints sampleNullifierWitness
        ⟨sampleNullifierWitness.note.commit, sampleNullifier⟩
    ∧ (NullifierDerivationProof.prove Mode.strict ⟨0⟩ 0 sampleNote ⟨0⟩
          sampleNullifier
          = .ok ⟨⟨sampleNullifierWitness.note.commit, sampleNullifier⟩, true⟩
        ∧ OutputProof.verify ⟨sampleOutputStatement, true⟩ ⟨0⟩
            sampleOutputStatement.balanceCommitment
            sampleOutputStatement.noteCommitment = .ok ()) :=
  ⟨by decide, by decide, by decide, by decide, by decide,
    ⟨(all_circuits_prove_verify_happy_path Mode.strict ⟨0⟩ ⟨0⟩
        sampleSpendWitness sampleSpendStatement sampleOutputWitness
        sampleOutputStatement sampleVoteWitness sampleVoteStatement
        sampleUndelegateWitness sampleUndelegateStatement
        sampleNullifierWitness sampleNullifier (by decide) (by decide)
        (by decide) (by decide) (by decide)).2.2.2.2.1,
      (all_circuits_prove_verify_happy_path Mode.strict ⟨0⟩ ⟨0⟩
        sampleSpendWitness sampleSpendStatement sampleOutputWitness
        sampleOutputStatement sampleVoteWitness sampleVoteStatement
        sampleUndelegateWitness sampleUndelegateStatement
        sampleNullifierWitness sampleNullifier (by decide) (by decide)
        (by decide) (by decide) (by decide)).2.1.2⟩⟩

/-- C3: For every spend whose note value equals zero, `prove` followed by
`verify` succeeds even when the Merkle inclusion proof is a synthetic
dummy (any position and any authentication path, unrelated to any tree
containing the note) and the anchor is arbitrary (in particular the root
of an empty tree), and for every choice of balance-blinding factor: the
Merkle membership check is not enforced for zero-value spends (first
conjunct). The zero-value fact itself is what gates the bypass: for a
nonzero note whose path does not hash to the anchor, strict proving
fails at synthesis and a relaxed-mode proof fails verification (second
conjunct). -/
theorem spend_dummy_zero_value_bypass
    (mode : Mode) (pk : ProvingKeyModel) (vk : VerifyingKeyModel)
    (note : Note) (ak : SpendAuthKey) (nk : NullifierKey)
    (randomizer vb pos : Nat) (path : List HashVal) (anchor : HashVal)
    (hown : addressIntegrity note ak nk) :
    (note.value.amount = 0 →
      SpendProof.prove mode pk ⟨note.commit, pos, path⟩ note vb randomizer
          ak nk anchor (note.value.commitBalance vb)
          (nk.deriveNullifier pos note.commit) (ak.randomizedKey randomizer)
        = .ok ⟨⟨anchor, note.value.commitBalance vb,
            nk.deriveNullifier pos note.commit,
            ak.randomizedKey randomizer⟩, true⟩
      ∧ SpendProof.verify ⟨⟨anchor, note.value.commitBalance vb,
            nk.deriveNullifier pos note.commit,
            ak.randomizedKey randomizer⟩, true⟩ vk anchor
          (note.value.commitBalance vb) (nk.deriveNullifier pos note.commit)
          (ak.randomizedKey randomizer) = .ok ())
    ∧ (note.value.amount ≠ 0 →
        recomputeRoot pos (some note.commit) path ≠ anchor →
      SpendProof.prove Mode.strict pk ⟨note.commit, pos, path⟩ note vb
          randomizer ak nk anchor (note.value.commitBalance vb)
          (nk.deriveNullifier pos note.commit) (ak.randomizedKey randomizer)
        = .error .synthesisFailure
      ∧ SpendProof.prove Mode.relaxed pk ⟨note.commit, pos, path⟩ note vb
          randomizer ak nk anchor (note.value.commitBalance vb)
          (nk.deriveNullifier pos note.commit) (ak.randomizedKey randomizer)
        = .ok ⟨⟨anchor, note.value.commitBalance vb,
            nk.deriveNullifier pos note.commit,
            ak.randomizedKey randomizer⟩, false⟩
      ∧ SpendProof.verify ⟨⟨anchor, note.value.commitBalance vb,
            nk.deriveNullifier pos note.commit,
            ak.randomizedKey randomizer⟩, false⟩ vk anchor
          (note.value.commitBalance vb) (nk.deriveNullifier pos note.commit)
          (ak.randomizedKey randomizer) = .error .invalidProof) := by
  constructor
  · intro hz
    have hc : spendConstraints ⟨⟨note.commit, pos, path⟩, note, vb,
        randomizer, ak, nk⟩ ⟨anchor, note.value.commitBalance vb,
        nk.deriveNullifier pos note.commit, ak.randomizedKey randomizer⟩ :=
      ⟨rfl, Or.inl hz, rfl, rfl, rfl, hown⟩
    exact ⟨groth16Prove_ok spendConstraints mode pk _ _ hc,
      groth16Verify_ok vk _⟩
  · intro hnz hroot
    have hnc : ¬ spendConstraints ⟨⟨note.commit, pos, path⟩, note, vb,
        randomizer, ak, nk⟩ ⟨anchor, note.value.commitBalance vb,
        nk.deriveNullifier pos note.commit, ak.randomizedKey randomizer⟩ := by
      intro hc
      rcases hc.2.1 with hz | hr
      · exact hnz hz
      · exact hroot hr
    exact ⟨groth16Prove_strict_fail spendConstraints pk _ _ hnc,
      groth16Prove_relaxed_unsat spendConstraints pk _ _ hnc,
      groth16Verify_unsat vk _ _⟩

theorem spend_dummy_zero_value_bypass_witness :
    addressIntegrity sampleZeroNote ⟨0⟩ ⟨0⟩
    ∧ (sampleZeroNote.value.amount = 0)
    ∧ (SpendProof.prove Mode.relaxed ⟨0⟩
          ⟨sampleZeroNote.commit, 6, [HashVal.leaf none]⟩ sampleZeroNote 5 3
          ⟨0⟩ ⟨0⟩ (.leaf none) (sampleZeroNote.value.commitBalance 5)
          (NullifierKey.deriveNullifier ⟨0⟩ 6 sampleZeroNote.commit)
          (SpendAuthKey.randomizedKey ⟨0⟩ 3)
        = .ok ⟨⟨.leaf none, sampleZeroNote.value.commitBalance 5,
            NullifierKey.deriveNullifier ⟨0⟩ 6 sampleZeroNote.commit,
            SpendAuthKey.randomizedKey ⟨0⟩ 3⟩, true⟩
      ∧ SpendProof.verify ⟨⟨.leaf none, sampleZeroNote.value.commitBalance 5,
            NullifierKey.deriveNullifier ⟨0⟩ 6 sampleZeroNote.commit,
            SpendAuthKey.randomizedKey ⟨0⟩ 3⟩, true⟩ ⟨0⟩ (.leaf none)
          (sampleZeroNote.value.commitBalance 5)
          (NullifierKey.deriveNullifier ⟨0⟩ 6 sampleZeroNote.commit)
          (SpendAuthKey.randomizedKey ⟨0⟩ 3) = .ok ()) :=
  ⟨by decide, by decide,
    (spend_dummy_zero_value_bypass Mode.relaxed ⟨0⟩ ⟨0⟩ sampleZeroNote
      ⟨0⟩ ⟨0⟩ 3 5 6 [HashVal.leaf none] (.leaf none) (by decide)).1 rfl⟩

/-- C4: The `DelegatorVoteCircuit` constraint system enforces that the
witnessed note's tree position is strictly less than the public
`start_position`. With all other relations satisfied by construction
(the anchor is the historical root the witnessed path hashes to): a note
at or after `start_position` is rejected at proving time in strict mode
(constraint violation), and if an inconsistent proof is forced through in
relaxed mode it is rejected at verification time; a note whose position
precedes `start_position` proves and verifies against the historical
anchor. -/
theorem delegator_vote_start_position_enforced
    (pk : ProvingKeyModel) (vk : VerifyingKeyModel) (note : Note)
    (ak : SpendAuthKey) (nk : NullifierKey)
    (randomizer pos start : Nat) (path : List HashVal)
    (hown : addressIntegrity note ak nk) :
    (DelegatorVoteProof.prove Mode.strict pk ⟨note.commit, pos, path⟩ note
        randomizer ak nk (recomputeRoot pos (some note.commit) path)
        (note.value.commitBalance 0) (nk.deriveNullifier pos note.commit)
        (ak.randomizedKey randomizer) start
      = if pos < start then
          .ok ⟨⟨recomputeRoot pos (some note.commit) path,
            note.value.commitBalance 0, nk.deriveNullifier pos note.commit,
            ak.randomizedKey randomizer, start⟩, true⟩
        else .error .synthesisFailure)
    ∧ (DelegatorVoteProof.prove Mode.relaxed pk ⟨note.commit, pos, path⟩ note
        randomizer ak nk (recomputeRoot pos (some note.commit) path)
        (note.value.commitBalance 0) (nk.deriveNullifier pos note.commit)
        (ak.randomizedKey randomizer) start
      = .ok ⟨⟨recomputeRoot pos (some note.commit) path,
          note.value.commitBalance 0, nk.deriveNullifier pos note.commit,
          ak.randomizedKey randomizer, start⟩, decide (pos < start)⟩)
    ∧ (DelegatorVoteProof.verify
        ⟨⟨recomputeRoot pos (some note.commit) path,
          note.value.commitBalance 0, nk.deriveNullifier pos note.commit,
          ak.randomizedKey randomizer, start⟩, decide (pos < start)⟩ vk
        (recomputeRoot pos (some note.commit) path)
        (note.value.commitBalance 0) (nk.deriveNullifier pos note.commit)
        (ak.randomizedKey randomizer) start
      = if pos < start then .ok () else .error .invalidProof) := by
  have hbase : spendConstraints ⟨⟨note.commit, pos, path⟩, note, 0,
      randomizer, ak, nk⟩ ⟨recomputeRoot pos (some note.commit) path,
      note.value.commitBalance 0, nk.deriveNullifier pos note.commit,
      ak.randomizedKey randomizer⟩ :=
    ⟨rfl, Or.inr rfl, rfl, rfl, rfl, hown⟩
  by_cases hp : pos < start
  · have hc : delegatorVoteConstraints ⟨⟨note.commit, pos, path⟩, note,
        randomizer, ak, nk⟩ ⟨recomputeRoot pos (some note.commit) path,
        note.value.commitBalance 0, nk.deriveNullifier pos note.commit,
        ak.randomizedKey randomizer, start⟩ := ⟨hbase, hp⟩
    refine ⟨?_, ?_, ?_⟩
    · rw [if_pos hp]
      exact groth16Prove_ok delegatorVoteConstraints Mode.strict pk _ _ hc
    · rw [decide_eq_true hp]
      exact groth16Prove_ok delegatorVoteConstraints Mode.relaxed pk _ _ hc
    · rw [decide_eq_true hp, if_pos hp]
      exact groth16Verify_ok vk _
  · have hnc : ¬ delegatorVoteConstraints ⟨⟨note.commit, pos, path⟩, note,
        randomizer, ak, nk⟩ ⟨recomputeRoot pos (some note.commit) path,
        note.value.commitBalance 0, nk.deriveNullifier pos note.commit,
        ak.randomizedKey randomizer, start⟩ := fun hc => hp hc.2
    refine ⟨?_, ?_, ?_⟩
    · rw [if_neg hp]
      exact groth16Prove_strict_fail delegatorVoteConstraints pk _ _ hnc
    · rw [decide_eq_false hp]
      exact groth16Prove_relaxed_unsat delegatorVoteConstraints pk _ _ hnc
    · rw [decide_eq_false hp, if_neg hp]
      exact groth16Verify_unsat vk _ _

theorem delegator_vote_start_position_enforced_witness :
    addressIntegrity sampleNote ⟨0⟩ ⟨0⟩
    ∧ (DelegatorVoteProof.prove Mode.strict ⟨0⟩ sampleProofObj sampleNote 3
          ⟨0⟩ ⟨0⟩ sampleAnchor (sampleNote.value.commitBalance 0)
          (NullifierKey.deriveNullifier ⟨0⟩ 0 sampleCm)
          (SpendAuthKey.randomizedKey ⟨0⟩ 3) 1
        = .ok ⟨sampleVoteStatement, true⟩)
    ∧ (DelegatorVoteProof.prove Mode.strict ⟨0⟩
          ⟨sampleCm, 4, []⟩ sampleNote 3
          ⟨0⟩ ⟨0⟩ (recomputeRoot 4 (some sampleCm) [])
          (sampleNote.value.commitBalance 0)
          (NullifierKey.deriveNullifier ⟨0⟩ 4 sampleCm)
          (SpendAuthKey.randomizedKey ⟨0⟩ 3) 1
        = .error .synthesisFailure) :=
  ⟨by decide,
    (delegator_vote_start_position_enforced ⟨0⟩ ⟨0⟩ sampleNote ⟨0⟩ ⟨0⟩ 3 0 1
      [] (by decide)).1,
    (delegator_vote_start_position_enforced ⟨0⟩ ⟨0⟩ sampleNote ⟨0⟩ ⟨0⟩ 3 4 1
      [] (by decide)).1⟩

/-- C5: For a spend witness violating a required circuit relation — here
a note bound to the wrong diversified address for the supplied keys, the
note's transmission key not being the one derived from `(ak, nk)` —
proving in strict (debug) mode fails at constraint synthesis, while in
relaxed (release) mode `prove` returns a structurally valid proof that
`verify` subsequently rejects; verification surfaces this as an explicit
failure result value (the verifier is a total function — never a process
crash). -/
theorem spend_wrong_diversified_address
    (pk : ProvingKeyModel) (vk : VerifyingKeyModel) (w : SpendWitness)
    (x : SpendStatement) (hbad : ¬ addressIntegrity w.note w.ak w.nk) :
    SpendProof.prove Mode.strict pk w.stateCommitmentProof w.note
        w.vBlinding w.spendAuthRandomizer w.ak w.nk x.anchor
        x.balanceCommitment x.nullifier x.rk = .error .synthesisFailure
    ∧ SpendProof.prove Mode.relaxed pk w.stateCommitmentProof w.note
        w.vBlinding w.spendAuthRandomizer w.ak w.nk x.anchor
        x.balanceCommitment x.nullifier x.rk = .ok ⟨x, false⟩
    ∧ SpendProof.verify ⟨x, false⟩ vk x.anchor x.balanceCommitment
        x.nullifier x.rk = .error .invalidProof := by
  have hnc : ¬ spendConstraints w x := fun hc => hbad hc.2.2.2.2.2
  exact ⟨groth16Prove_strict_fail spendConstraints pk w x hnc,
    groth16Prove_relaxed_unsat spendConstraints pk w x hnc,
    groth16Verify_unsat vk x x⟩

theorem spend_wrong_diversified_address_witness :
    ¬ addressIntegrity ⟨⟨1, 0⟩, ⟨0, .derive 9 9 9, 0⟩, 0⟩ ⟨0⟩ ⟨0⟩
    ∧ (SpendProof.prove Mode.strict ⟨0⟩
          ⟨Note.commit ⟨⟨1, 0⟩, ⟨0, .derive 9 9 9, 0⟩, 0⟩, 0, []⟩
          ⟨⟨1, 0⟩, ⟨0, .derive 9 9 9, 0⟩, 0⟩ 5 3 ⟨0⟩ ⟨0⟩
          sampleSpendStatement.anchor sampleSpendStatement.balanceCommitment
          sampleSpendStatement.nullifier sampleSpendStatement.rk
          = .error .synthesisFailure
      ∧ SpendProof.prove Mode.relaxed ⟨0⟩
          ⟨Note.commit ⟨⟨1, 0⟩, ⟨0, .derive 9 9 9, 0⟩, 0⟩, 0, []⟩
          ⟨⟨1, 0⟩, ⟨0, .derive 9 9 9, 0⟩, 0⟩ 5 3 ⟨0⟩ ⟨0⟩
          sampleSpendStatement.anchor sampleSpendStatement.balanceCommitment
          sampleSpendStatement.nullifier sampleSpendStatement.rk
          = .ok ⟨sampleSpendStatement, false⟩
      ∧ SpendProof.verify ⟨sampleSpendStatement, false⟩ ⟨0⟩
          sampleSpendStatement.anchor sampleSpendStatement.balanceCommitment
          sampleSpendStatement.nullifier sampleSpendStatement.rk
          = .error .invalidProof) :=
  ⟨by decide,
    spend_wrong_diversified_address ⟨0⟩ ⟨0⟩
      ⟨⟨Note.commit ⟨⟨1, 0⟩, ⟨0, .derive 9 9 9, 0⟩, 0⟩, 0, []⟩,
        ⟨⟨1, 0⟩, ⟨0, .derive 9 9 9, 0⟩, 0⟩, 5, 3, ⟨0⟩, ⟨0⟩⟩
      sampleSpendStatement (by decide)⟩

/-- C6: For the `NullifierDerivationCircuit`, the public inputs consist
exactly of the note commitment (recomputed from the witness note and
checked) and the nullifier value (the two fields of
`NullifierDerivationStatement`, first conjunct). Whenever the supplied
nullifier differs from the one the public inputs imply (the deterministic
derivation from the nullifier key, position and commitment), strict
proving fails at synthesis, and a relaxed-mode proof is rejected by
`verify` with an explicit failure result rather than a panic (the
verifier is a total function returning a value). -/
theorem nullifier_derivation_mismatch_fails
    (pk : ProvingKeyModel) (vk : VerifyingKeyModel) (pos : Nat)
    (note : Note) (nk : NullifierKey) (nf : Nullifier)
    (hne : nf ≠ nk.deriveNullifier pos note.commit) :
    (∀ y : NullifierDerivationStatement, y = ⟨y.noteCommitment, y.nullifier⟩)
    ∧ NullifierDerivationProof.prove Mode.strict pk pos note nk nf
        = .error .synthesisFailure
    ∧ NullifierDerivationProof.prove Mode.relaxed pk pos note nk nf
        = .ok ⟨⟨note.commit, nf⟩, false⟩
    ∧ NullifierDerivationProof.verify ⟨⟨note.commit, nf⟩, false⟩ vk pos note
        nf = .error .invalidProof := by
  have hnc : ¬ nullifierDerivationConstraints ⟨pos, note, nk⟩
      ⟨note.commit, nf⟩ := fun hc => hne hc.2
  exact ⟨fun y => rfl,
    groth16Prove_strict_fail nullifierDerivationConstraints pk _ _ hnc,
    groth16Prove_relaxed_unsat nullifierDerivationConstraints pk _ _ hnc,
    groth16Verify_unsat vk _ _⟩

theorem nullifier_derivation_mismatch_fails_witness :
    (NullifierKey.deriveNullifier ⟨0⟩ 5 sampleCm
        ≠ NullifierKey.deriveNullifier ⟨0⟩ 0 sampleCm)
    ∧ (NullifierDerivationProof.prove Mode.strict ⟨0⟩ 0 sampleNote ⟨0⟩
          (NullifierKey.deriveNullifier ⟨0⟩ 5 sampleCm)
          = .error .synthesisFailure
      ∧ NullifierDerivationProof.verify
          ⟨⟨sampleCm, NullifierKey.deriveNullifier ⟨0⟩ 5 sampleCm⟩, false⟩
          ⟨0⟩ 0 sampleNote (NullifierKey.deriveNullifier ⟨0⟩ 5 sampleCm)
          = .error .invalidProof) :=
  ⟨by decide,
    (nullifier_derivation_mismatch_fails ⟨0⟩ ⟨0⟩ 0 sampleNote ⟨0⟩
      (NullifierKey.deriveNullifier ⟨0⟩ 5 sampleCm) (by decide)).2.1,
    (nullifier_derivation_mismatch_fails ⟨0⟩ ⟨0⟩ 0 sampleNote ⟨0⟩
      (NullifierKey.deriveNullifier ⟨0⟩ 5 sampleCm) (by decide)).2.2.2⟩

/-- C7: For every `UndelegateClaimProof`, the enforced relation is that
the public balance commitment equals the commitment, under the witness
blinding factor and the public unbonding token identifier, of the
penalty function applied to the witness unbonding amount
(`undelegateClaimConstraints`, which commits
`balanceForClaim unbondingId amount penalty` — the deterministic rational
conversion `penaltyApplied` computed on the claimed value before
committing). A witness satisfying this relation proves (in either mode)
and verifies, for every penalty value, unbonding amount, blinding factor
and unbonding token identifier. -/
theorem undelegate_claim_penalty_relation
    (mode : Mode) (pk : ProvingKeyModel) (vk : VerifyingKeyModel)
    (amount penalty blinding : Nat) (unbondingId : AssetId)
    (x : UndelegateClaimStatement)
    (hrel : undelegateClaimConstraints ⟨amount, blinding⟩ x)
    (hid : x.unbondingId = unbondingId) (hpen : x.penalty = penalty) :
    UndelegateClaimProof.prove mode pk amount blinding x.balanceCommitment
        unbondingId penalty = .ok ⟨x, true⟩
    ∧ UndelegateClaimProof.verify ⟨x, true⟩ vk x.balanceCommitment
        unbondingId penalty
      = .ok ()
    ∧ x.balanceCommitment
      = .commit (balanceForClaim unbondingId amount penalty) blinding := by
  subst hid hpen
  exact ⟨groth16Prove_ok undelegateClaimConstraints mode pk _ _ hrel,
    groth16Verify_ok vk _, hrel⟩

theorem undelegate_claim_penalty_relation_witness :
    undelegateClaimConstraints sampleUndelegateWitness
      sampleUndelegateStatement
    ∧ (UndelegateClaimProof.prove Mode.strict ⟨0⟩ 10 4
          sampleUndelegateStatement.balanceCommitment 2 50000000
          = .ok ⟨sampleUndelegateStatement, true⟩
      ∧ UndelegateClaimProof.verify ⟨sampleUndelegateStatement, true⟩ ⟨0⟩
          sampleUndelegateStatement.balanceCommitment 2 50000000 = .ok ()
      ∧ sampleUndelegateStatement.balanceCommitment
        = .commit (balanceForClaim 2 10 50000000) 4) :=
  ⟨by decide,
    undelegate_claim_penalty_relation Mode.strict ⟨0⟩ ⟨0⟩ 10 50000000 4 2
      sampleUndelegateStatement (by decide) rfl rfl⟩

/-- C8: Every proof (of every circuit type — all wrappers share the same
fixed-size representation `ProofBytes`) encodes to a byte string of
exactly `GROTH16_PROOF_LENGTH_BYTES = 192` bytes, including under the
wire message conversion; and decoding any input whose byte length
differs from 192 — directly from raw bytes, or via the wire message
envelope, which re-validates the length before accepting — fails
deterministically with `invalidLength`. Decoding is a pure total
function, so failure has no partial decode side effects. -/
theorem proof_encoding_fixed_length_192
    (p : ProofBytes) (bs : List ProofByte) (m : ZkProofMessage)
    (hbs : bs.length ≠ GROTH16_PROOF_LENGTH_BYTES)
    (hm : m.inner.length ≠ GROTH16_PROOF_LENGTH_BYTES) :
    (ProofBytes.toMessage p).inner.length = 192
    ∧ GROTH16_PROOF_LENGTH_BYTES = 192
    ∧ proofFromBytes bs = .error .invalidLength
    ∧ m.tryToProof = .error .invalidLength := by
  refine ⟨p.lengthEq, rfl, ?_, ?_⟩
  · unfold proofFromBytes
    rw [dif_neg hbs]
  · unfold ZkProofMessage.tryToProof
    rw [dif_neg hm]

theorem proof_encoding_fixed_length_192_witness :
    (([] : List ProofByte).length ≠ GROTH16_PROOF_LENGTH_BYTES)
    ∧ ((ProofBytes.toMessage sampleProofBytes).inner.length = 192
      ∧ GROTH16_PROOF_LENGTH_BYTES = 192
      ∧ proofFromBytes ([] : List ProofByte) = .error .invalidLength
      ∧ ZkProofMessage.tryToProof ⟨([] : List ProofByte)⟩
        = .error .invalidLength) :=
  ⟨by decide,
    proof_encoding_fixed_length_192 sampleProofBytes ([] : List ProofByte)
      ⟨([] : List ProofByte)⟩ (by decide) (by decide)⟩

/-- C9: Serializing a proof — including conversion to the wire message
type — and then deserializing yields back exactly the original proof
object, so any verification procedure returns the same result on the
round-tripped proof as on the original for the same verifying key and
public inputs (second conjunct, for an arbitrary verifier `v` applied to
the round-trip's result via `Except.map`). -/
theorem proof_wire_roundtrip_verifies_identically
    (p : ProofBytes) (v : ProofBytes → Except VerificationError Unit) :
    (ProofBytes.toMessage p).tryToProof = .ok p
    ∧ Except.map v ((ProofBytes.toMessage p).tryToProof) = .ok (v p) := by
  have h : (ProofBytes.toMessage p).tryToProof = .ok p := by
    unfold ZkProofMessage.tryToProof ProofBytes.toMessage
    rw [dif_pos p.lengthEq]
  exact ⟨h, by rw [h]; rfl⟩

/-- C10: Under a single (proving key, verifying key) pair generated once
from the `MerkleProofCircuit` description, inclusion proofs for every
retained (kept) commitment prove and verify against the tree's current
root as the tree evolves under an arbitrary operation sequence — further
insertions, ending blocks, ending epochs, and arbitrarily many
interleaved commitments inserted and immediately forgotten — as long as
the tree has not outgrown the depth-`d` leaf space. -/
theorem merkle_proof_verifies_as_tree_evolves
    (mode : Mode) (pk : ProvingKeyModel) (vk : VerifyingKeyModel)
    (d bs es : Nat) (ops : List TctOp) (p : Nat) (c : NoteCommitment)
    (hbs : 0 < bs) (hes : 0 < es)
    (hmem : (p, c, true) ∈ (runTct bs es ops).entries)
    (hcap : (runTct bs es ops).next ≤ 2 ^ d) :
    MerkleProofCircuit.prove mode pk ((runTct bs es ops).witnessProof d p c)
        ((runTct bs es ops).root d)
      = .ok ⟨⟨(runTct bs es ops).root d⟩, true⟩
    ∧ MerkleProofCircuit.verify ⟨⟨(runTct bs es ops).root d⟩, true⟩ vk
        ((runTct bs es ops).root d) = .ok () := by
  obtain ⟨hlt, hpw⟩ := wellFormed_runTct bs es hbs hes ops
  have hpos : p < 2 ^ d :=
    Nat.lt_of_lt_of_le (hlt (p, c, true) hmem) hcap
  have hleaf : leafAt (runTct bs es ops).entries p = some c :=
    leafAt_of_mem (runTct bs es ops).entries p c true hpw hmem
  have hc : merkleConstraints ⟨(runTct bs es ops).witnessProof d p c⟩
      ⟨(runTct bs es ops).root d⟩ := by
    show recomputeRoot p (some c)
        (authPath d 0 p (leafAt (runTct bs es ops).entries))
      = buildTree d 0 (leafAt (runTct bs es ops).entries)
    rw [← hleaf]
    have := recomputeRoot_authPath d 0 p
      (leafAt (runTct bs es ops).entries) hpos
    rwa [Nat.zero_add] at this
  exact ⟨groth16Prove_ok merkleConstraints mode pk _ _ hc,
    groth16Verify_ok vk _⟩

theorem merkle_proof_verifies_as_tree_evolves_witness :
    (0 : Nat) < 2 ∧ (0 : Nat) < 4
    ∧ (2, sampleCm, true) ∈ (runTct 2 4
        [.insert true (sampleZeroNote.commit), .endBlock,
          .insert true sampleCm, .insert false (sampleZeroNote.commit)]).entries
    ∧ (runTct 2 4
        [.insert true (sampleZeroNote.commit), .endBlock,
          .insert true sampleCm, .insert false (sampleZeroNote.commit)]).next
      ≤ 2 ^ 2
    ∧ (MerkleProofCircuit.prove Mode.strict ⟨0⟩
          ((runTct 2 4
            [.insert true (sampleZeroNote.commit), .endBlock,
              .insert true sampleCm,
              .insert false (sampleZeroNote.commit)]).witnessProof 2 2
            sampleCm)
          ((runTct 2 4
            [.insert true (sampleZeroNote.commit), .endBlock,
              .insert true sampleCm,
              .insert false (sampleZeroNote.commit)]).root 2)
        = .ok ⟨⟨(runTct 2 4
            [.insert true (sampleZeroNote.commit), .endBlock,
              .insert true sampleCm,
              .insert false (sampleZeroNote.commit)]).root 2⟩, true⟩
      ∧ MerkleProofCircuit.verify
          ⟨⟨(runTct 2 4
            [.insert true (sampleZeroNote.commit), .endBlock,
              .insert true sampleCm,
              .insert false (sampleZeroNote.commit)]).root 2⟩, true⟩ ⟨0⟩
          ((runTct 2 4
            [.insert true (sampleZeroNote.commit), .endBlock,
              .insert true sampleCm,
              .insert false (sampleZeroNote.commit)]).root 2) = .ok ()) :=
  ⟨by decide, by decide, by decide, by decide,
    merkle_proof_verifies_as_tree_evolves Mode.strict ⟨0⟩ ⟨0⟩ 2 2 4
      [.insert true (sampleZeroNote.commit), .endBlock,
        .insert true sampleCm, .insert false (sampleZeroNote.commit)]
      2 sampleCm (by decide) (by decide) (by decide) (by decide)⟩
